import Mathlib

/-!
Shallow embedding of the function-sampling and coordinate-transform core of the
Calculus-Visualizer repository (src/app/page.tsx and
src/components/derivative-graph.tsx), together with proofs settling the frozen
claims about it.

Numbers are modelled exactly: a JavaScript number is either a finite rational,
positive or negative infinity, or NaN.  Rounding of IEEE doubles is not
modelled (arithmetic on finite values is exact rational arithmetic); the
special-value propagation rules of JavaScript arithmetic are modelled
faithfully, since the claims turn on them.  The external mathjs evaluate
capability is modelled as an abstract function from an expression string and a
rational argument to either a returned value or a thrown exception.
-/

/-- Value of a JavaScript number: a finite rational, an infinity, or NaN. -/
inductive JsNum where
  | fin (q : ℚ)
  | posInf
  | negInf
  | nan
deriving DecidableEq

/-- JavaScript isFinite on a number. -/
def jsIsFinite : JsNum → Bool
  | .fin _ => true
  | _ => false

/-- JavaScript isNaN on a number. -/
def jsIsNaN : JsNum → Bool
  | .nan => true
  | _ => false

/-- JavaScript unary negation. -/
def jsNeg : JsNum → JsNum
  | .fin q => .fin (-q)
  | .posInf => .negInf
  | .negInf => .posInf
  | .nan => .nan

/-- JavaScript addition: NaN propagates, opposite infinities give NaN. -/
def jsAdd : JsNum → JsNum → JsNum
  | .nan, _ => .nan
  | _, .nan => .nan
  | .posInf, .negInf => .nan
  | .negInf, .posInf => .nan
  | .posInf, _ => .posInf
  | _, .posInf => .posInf
  | .negInf, _ => .negInf
  | _, .negInf => .negInf
  | .fin a, .fin b => .fin (a + b)

/-- JavaScript subtraction, as addition of the negation. -/
def jsSub (a b : JsNum) : JsNum := jsAdd a (jsNeg b)

/-- JavaScript multiplication: NaN propagates, infinity times zero is NaN. -/
def jsMul : JsNum → JsNum → JsNum
  | .nan, _ => .nan
  | _, .nan => .nan
  | .fin a, .fin b => .fin (a * b)
  | .fin a, .posInf => if a = 0 then .nan else if 0 < a then .posInf else .negInf
  | .fin a, .negInf => if a = 0 then .nan else if 0 < a then .negInf else .posInf
  | .posInf, .fin b => if b = 0 then .nan else if 0 < b then .posInf else .negInf
  | .negInf, .fin b => if b = 0 then .nan else if 0 < b then .negInf else .posInf
  | .posInf, .posInf => .posInf
  | .posInf, .negInf => .negInf
  | .negInf, .posInf => .negInf
  | .negInf, .negInf => .posInf

/-- JavaScript division: NaN propagates, a nonzero finite number divided by
zero gives a signed infinity, zero divided by zero gives NaN, infinity divided
by infinity gives NaN.  Signed zero is not modelled (rationals have one zero),
so division of an infinity by zero uses the positive sign. -/
def jsDiv : JsNum → JsNum → JsNum
  | .nan, _ => .nan
  | _, .nan => .nan
  | .fin a, .fin b =>
      if b = 0 then (if a = 0 then .nan else if 0 < a then .posInf else .negInf)
      else .fin (a / b)
  | .fin _, .posInf => .fin 0
  | .fin _, .negInf => .fin 0
  | .posInf, .fin b => if 0 ≤ b then .posInf else .negInf
  | .negInf, .fin b => if 0 ≤ b then .negInf else .posInf
  | .posInf, _ => .nan
  | .negInf, _ => .nan

/-- JavaScript Math.abs. -/
def jsAbs : JsNum → JsNum
  | .fin q => .fin |q|
  | .nan => .nan
  | _ => .posInf

/-- JavaScript strict less-than: any comparison with NaN is false. -/
def jsLt : JsNum → JsNum → Bool
  | .nan, _ => false
  | _, .nan => false
  | .fin a, .fin b => decide (a < b)
  | .posInf, _ => false
  | _, .posInf => true
  | .negInf, .negInf => false
  | .negInf, .fin _ => true
  | .fin _, .negInf => false

/-- Rendering of a JavaScript number as a string (stands in for toFixed
formatting in the one message that embeds a number; the exact digits are
irrelevant to every claim). -/
def jsNumRepr : JsNum → String
  | .fin q => toString q
  | .posInf => "Infinity"
  | .negInf => "-Infinity"
  | .nan => "NaN"

/-- Outcome of one call to the external mathjs evaluate capability: either a
returned JavaScript number or a thrown exception. -/
inductive EvalOutcome where
  | ok (v : JsNum)
  | err
deriving DecidableEq

/-- The external evaluate capability: expression string and binding for x in. -/
def EvalCap : Type := String → ℚ → EvalOutcome

/-- safeEval from src/app/page.tsx lines 68 to 74: calls the capability and
converts a thrown exception into NaN; a returned value passes through. -/
def safeEval (cap : EvalCap) (expr : String) (x : ℚ) : JsNum :=
  match cap expr x with
  | .ok v => v
  | .err => .nan

/-- numericalDerivative from src/app/page.tsx lines 77 to 79: central
difference quotient built from two safeEval calls.  Callers pass the source
default step h = 0.0001 explicitly. -/
def numericalDerivative (cap : EvalCap) (func : String) (x h : ℚ) : JsNum :=
  jsDiv (jsSub (safeEval cap func (x + h)) (safeEval cap func (x - h))) (.fin (2 * h))

/-- A sample point as pushed by calculatePoints in src/app/page.tsx. -/
structure PPoint where
  x : ℚ
  y : JsNum
deriving DecidableEq

/-- One loop iteration of calculatePoints (src/app/page.tsx lines 86 to 92):
evaluate at the grid point and retain only a finite value of magnitude below
100. -/
def calcPoint (cap : EvalCap) (func : String) (lo step : ℚ) (i : ℕ) : Option PPoint :=
  let x := lo + (i : ℚ) * step
  let y := safeEval cap func x
  if (!(jsIsNaN y)) && jsIsFinite y && jsLt (jsAbs y) (.fin 100) then
    some { x := x, y := y }
  else
    none

/-- calculatePoints from src/app/page.tsx lines 82 to 95.  The resolution is a
parameter; the source default is 500 and callers pass it explicitly. -/
def calculatePoints (cap : EvalCap) (func : String) (range : ℚ × ℚ) (numPoints : ℕ) :
    List PPoint :=
  let step := (range.2 - range.1) / (numPoints : ℚ)
  (List.range (numPoints + 1)).filterMap (calcPoint cap func range.1 step)

/-- getEffectiveViewRange from src/app/page.tsx lines 98 to 104. -/
def getEffectiveViewRange (viewRange : ℚ × ℚ) (zoomLevel : ℚ) (panOffset : ℚ × ℚ) :
    ℚ × ℚ :=
  let rangeWidth := viewRange.2 - viewRange.1
  let zoomedWidth := rangeWidth / zoomLevel
  let centerX := (viewRange.1 + viewRange.2) / 2 + panOffset.1
  (centerX - zoomedWidth / 2, centerX + zoomedWidth / 2)

/-- mapToSVG from src/app/page.tsx lines 107 to 119, on an exact point.  The
padding is the source constant 40; panY is the pixel-space vertical pan. -/
def mapToSVG (svgWidth svgHeight zoomLevel panY : ℚ) (range : ℚ × ℚ) (point : ℚ × ℚ) :
    ℚ × ℚ :=
  let padding : ℚ := 40
  let graphWidth := svgWidth - 2 * padding
  let graphHeight := svgHeight - 2 * padding
  let xScale := graphWidth / (range.2 - range.1)
  let yScale := (graphHeight / 20) * zoomLevel
  (padding + (point.1 - range.1) * xScale, svgHeight / 2 - point.2 * yScale + panY)

/-- Pointer inverse of the x half of mapToSVG, from handleMouseMove in
src/app/page.tsx lines 273 to 277. -/
def fromSVGx (svgWidth : ℚ) (range : ℚ × ℚ) (mouseX : ℚ) : ℚ :=
  let padding : ℚ := 40
  let graphWidth := svgWidth - 2 * padding
  let xScale := graphWidth / (range.2 - range.1)
  range.1 + (mouseX - padding) / xScale

/-- Sequential reads of indices 0 up to n - 1 of a list, failing (none) as soon
as a read is out of range.  This models the JavaScript loop indexing
points[i]: an index past the end yields undefined and the subsequent member
access inside mapToSVG throws. -/
def readUpTo {α : Type} (l : List α) : ℕ → Option (List α)
  | 0 => some []
  | n + 1 =>
    match readUpTo l n, l.get? n with
    | some acc, some p => some (acc ++ [p])
    | _, _ => none

/-- The animated branch of createPath from src/app/page.tsx lines 122 to 149:
computes endIndex = floor(length times progress), returns the empty path when
endIndex is at most 0, and otherwise reads indices 0 through endIndex
inclusive.  The returned value is the list of samples whose mapped coordinates
make up the path; none models the out-of-range read that occurs in the source
when endIndex reaches the length. -/
def createPathAnimated (pts : List PPoint) (progress : ℚ) : Option (List PPoint) :=
  if pts.length = 0 then some []
  else
    let endIndex := ⌊(pts.length : ℚ) * progress⌋
    if endIndex ≤ 0 then some []
    else readUpTo pts (endIndex.toNat + 1)

/-- One tick of the animate callback from src/app/page.tsx lines 160 to 163:
advance progress by elapsed divided by (5000 / speed) and wrap to 0 once the
result exceeds 1. -/
def animateTick (prev elapsed speed : ℚ) : ℚ :=
  let newProgress := prev + elapsed / (5000 / speed)
  if newProgress > 1 then 0 else newProgress

/-- A data row as pushed by generateData in
src/components/derivative-graph.tsx. -/
structure GSample where
  x : ℚ
  y : JsNum
  dy : JsNum
  tangent : JsNum
deriving DecidableEq

/-- JavaScript truthiness test on the dy variable of generateData, which is
either null (no derivative requested) or a number: null, zero and NaN are
falsy. -/
def jsFalsyOpt : Option JsNum → Bool
  | none => true
  | some (.fin q) => decide (q = 0)
  | some .nan => true
  | some _ => false

/-- JavaScript isFinite applied to the dy variable (isFinite(null) is true in
JavaScript because null coerces to 0; the branch is unreachable in the source
thanks to short-circuiting but is modelled faithfully). -/
def jsIsFiniteOpt : Option JsNum → Bool
  | none => true
  | some (.fin _) => true
  | some _ => false

/-- The expression dy or-else 0 from the source: null and NaN (both falsy)
become 0; a truthy number passes through, and zero stays zero. -/
def jsOrZero : Option JsNum → JsNum
  | none => .fin 0
  | some (.fin q) => .fin q
  | some .nan => .fin 0
  | some v => v

/-- One loop iteration of generateData (src/components/derivative-graph.tsx
lines 51 to 74): evaluate the function, evaluate the derivative when one was
requested (a thrown evaluation skips the point, matching the inner catch),
compute the tangent row, and retain the point only when y is finite and dy is
falsy or finite. -/
def genPoint (cap : EvalCap) (func derivStr : String) (slope intercept : JsNum)
    (lo step : ℚ) (i : ℕ) : Option GSample :=
  let x := lo + (i : ℚ) * step
  match cap func x with
  | .err => none
  | .ok y =>
    match (if derivStr = "" then some Option.none else
            match cap derivStr x with
            | .ok v => some (some v)
            | .err => none) with
    | none => none
    | some dy =>
      if jsIsFinite y && (jsFalsyOpt dy || jsIsFiniteOpt dy) then
        some { x := x, y := y, dy := jsOrZero dy,
               tangent := jsAdd (jsMul slope (.fin x)) intercept }
      else none

/-- generateData from src/components/derivative-graph.tsx lines 30 to 83: an
empty function string produces the empty data set; the tangent slope and the
function value at the tangent point are evaluated unguarded, so a thrown
evaluation there aborts the whole pass (outer catch, modelled as none); the
grid has the source constant 1000 intervals. -/
def generateData (cap : EvalCap) (func derivStr : String) (domain : ℚ × ℚ)
    (tangentPoint : ℚ) : Option (List GSample) :=
  if func = "" then some []
  else
    match cap derivStr tangentPoint with
    | .err => none
    | .ok slope =>
      match cap func tangentPoint with
      | .err => none
      | .ok f0 =>
        let intercept := jsSub f0 (jsMul slope (.fin tangentPoint))
        let step := (domain.2 - domain.1) / 1000
        some ((List.range 1001).filterMap
          (genPoint cap func derivStr slope intercept domain.1 step))

/-- The tangent segment drawn in src/app/page.tsx lines 668 to 683: endpoints
at horizontal distance 2 from the highlighted point, in mathematical space. -/
def tangentLinePoints (centerX centerY slope : ℚ) : (ℚ × ℚ) × (ℚ × ℚ) :=
  let xRange : ℚ := 2
  ((centerX - xRange, centerY - slope * xRange),
   (centerX + xRange, centerY + slope * xRange))

/-- The component state of DerivativeVisualizer in src/app/page.tsx that the
claims touch, with React useState cells made explicit fields. -/
structure VizState where
  activeTab : String
  customFunction : String
  derivedFunction : String
  errorMessage : String
  viewRange : ℚ × ℚ
  points : List PPoint
  derivativePoints : List PPoint
  isAnimating : Bool
  animationProgress : ℚ
  animationSpeed : ℚ
  zoomLevel : ℚ
  panOffset : ℚ × ℚ

/-- The predefinedFunctions table from src/app/page.tsx lines 43 to 65, as
name and derivative pairs per tab key (an unknown key yields the empty list,
matching an undefined object lookup). -/
def predefinedFunctions (tab : String) : List (String × String) :=
  if tab = "trig" then
    [("sin(x)", "cos(x)"), ("cos(x)", "-sin(x)"), ("tan(x)", "sec(x)^2")]
  else if tab = "product" then
    [("x * sin(x)", "sin(x) + x * cos(x)"),
     ("x^2 * cos(x)", "2 * x * cos(x) - x^2 * sin(x)"),
     ("e^x * x", "e^x * (x + 1)")]
  else if tab = "quotient" then
    [("sin(x) / x", "(x * cos(x) - sin(x)) / x^2"),
     ("x / cos(x)", "(cos(x) - x * sin(x)) / cos(x)^2"),
     ("(x^2 + 1) / x", "(x^2 - 1) / x^2")]
  else if tab = "chain" then
    [("sin(x^2)", "2 * x * cos(x^2)"),
     ("e^sin(x)", "cos(x) * e^sin(x)"),
     ("ln(cos(x))", "-tan(x)")]
  else if tab = "custom" then
    [("sin(x)", "cos(x)")]
  else []

/-- The lookup predefinedFunctions[activeTab].find(...)?.derivative or-else
the empty string, from src/app/page.tsx line 239. -/
def lookupDerivative (tab funcName : String) : String :=
  match (predefinedFunctions tab).find? (fun f => f.1 == funcName) with
  | some f => f.2
  | none => ""

/-- calculateDerivative from src/app/page.tsx lines 226 to 263, success path
(nothing in the embedded body can throw, so the catch branch is dead).  The
early return for an empty custom function is the first branch; afterwards the
derived-function text is set and both point lists are recomputed against the
current effective view range. -/
def calculateDerivative (cap : EvalCap) (s : VizState) : VizState :=
  if s.activeTab == "custom" && s.customFunction.trim == "" then
    { s with derivedFunction := "", points := [], derivativePoints := [] }
  else
    let s1 :=
      if s.activeTab == "custom" then
        { s with derivedFunction :=
            "Numerical derivative at x=0: " ++
              jsNumRepr (numericalDerivative cap s.customFunction 0 (1 / 10000)) }
      else
        { s with derivedFunction := lookupDerivative s.activeTab s.customFunction }
    let range := getEffectiveViewRange s.viewRange s.zoomLevel s.panOffset
    let funcPoints := calculatePoints cap s.customFunction range 500
    let derPoints := funcPoints.filterMap (fun p =>
      let dy := numericalDerivative cap s.customFunction p.x (1 / 10000)
      if (!(jsIsNaN dy)) && jsIsFinite dy && jsLt (jsAbs dy) (.fin 100) then
        some { x := p.x, y := dy }
      else none)
    { s1 with points := funcPoints, derivativePoints := derPoints, errorMessage := "" }

/-- handleFunctionChange from src/app/page.tsx lines 202 to 209: selecting a
predefined function updates the expression and its derivative text. -/
def handleFunctionChange (s : VizState) (value : String) : VizState :=
  match (predefinedFunctions s.activeTab).find? (fun f => f.1 == value) with
  | some f =>
    { s with customFunction := f.1, derivedFunction := f.2, errorMessage := "" }
  | none => s

/-- handleCustomFunctionChange from src/app/page.tsx lines 212 to 223: typing
a custom expression updates it and probes it at x = 1 for a warning. -/
def handleCustomFunctionChange (cap : EvalCap) (s : VizState) (value : String) :
    VizState :=
  let s1 := { s with customFunction := value }
  let xTest := safeEval cap value 1
  if jsIsNaN xTest || !(jsIsFinite xTest) then
    { s1 with errorMessage := "Warning: Function may be invalid" }
  else
    { s1 with errorMessage := "" }

/-- An expression change through the predefined select, followed by the
recompute effect of src/app/page.tsx lines 359 to 361. -/
def expressionChangeSelect (cap : EvalCap) (s : VizState) (value : String) : VizState :=
  calculateDerivative cap (handleFunctionChange s value)

/-- An expression change through the custom input, followed by the recompute
effect of src/app/page.tsx lines 359 to 361. -/
def expressionChangeCustom (cap : EvalCap) (s : VizState) (value : String) : VizState :=
  calculateDerivative cap (handleCustomFunctionChange cap s value)

/-- A domain change through handleRangeChange (src/app/page.tsx lines 354 to
356), followed by the recompute effect of lines 359 to 361. -/
def domainChange (cap : EvalCap) (s : VizState) (newRange : ℚ × ℚ) : VizState :=
  calculateDerivative cap { s with viewRange := newRange }

/-- Expression string constants used by the concrete capability models. -/
def exprOneOverX : String := "1/x"

def exprX : String := "x"

def exprF : String := "f"

def exprD : String := "d"

def exprCos : String := "cos(x)"

/-- Models the external mathjs evaluate capability on the expression 1/x:
JavaScript arithmetic evaluates 1/0 to Infinity without raising, so the
capability returns a value, never throws, at every x. -/
def cap1x : EvalCap := fun _ x => .ok (jsDiv (.fin 1) (.fin x))

/-- A capability that always throws. -/
def capErr : EvalCap := fun _ _ => .err

/-- A capability that always returns 0. -/
def capZ : EvalCap := fun _ _ => .ok (.fin 0)

/-- A capability for the C2 counterexample: the function expression evaluates
to 0 for x at most 3 and throws beyond, while the derivative expression
evaluates to Infinity at x = 0 and to 1 elsewhere. -/
def capC : EvalCap := fun expr x =>
  if expr == exprF then (if x ≤ 3 then .ok (.fin 0) else .err)
  else (if x = 0 then .ok .posInf else .ok (.fin 1))

/-- A capability for the C2 witness: the function expression evaluates to 1
everywhere and every other expression evaluates to NaN. -/
def capCW : EvalCap := fun expr _ =>
  if expr == exprF then .ok (.fin 1) else .ok .nan

/-- A capability for the C9 counterexample: the function expression evaluates
to 0 at x = 0 and throws elsewhere; the derivative expression evaluates to
NaN everywhere. -/
def capN : EvalCap := fun expr x =>
  if expr == exprF then (if x = 0 then .ok (.fin 0) else .err)
  else .ok .nan

/-- A capability for the C10 witness: evaluates to 1 at x = 0 and throws
elsewhere. -/
def capW : EvalCap := fun _ x => if x = 0 then .ok (.fin 1) else .err

/-- A two-sample list for the C4 counterexample and witness. -/
def pts2 : List PPoint := [{ x := 0, y := .fin 0 }, { x := 1, y := .fin 1 }]

/-- A concrete component state mid-animation on the trig tab, for the C3
counterexample. -/
def s0 : VizState :=
  { activeTab := "trig", customFunction := "sin(x)", derivedFunction := "cos(x)",
    errorMessage := "", viewRange := (-10, 10), points := [],
    derivativePoints := [], isAnimating := true, animationProgress := 1 / 2,
    animationSpeed := 1, zoomLevel := 1, panOffset := (0, 0) }

/-! Helper lemmas shared by the claim theorems. -/

theorem jsOrZero_finite (dy : Option JsNum)
    (h : (jsFalsyOpt dy || jsIsFiniteOpt dy) = true) :
    jsIsFinite (jsOrZero dy) = true := by
  match dy with
  | none => rfl
  | some (.fin q) => rfl
  | some .nan => rfl
  | some .posInf => simp [jsFalsyOpt, jsIsFiniteOpt] at h
  | some .negInf => simp [jsFalsyOpt, jsIsFiniteOpt] at h

theorem calcPoint_some {cap : EvalCap} {func : String} {lo step : ℚ} {i : ℕ}
    {p : PPoint} (h : calcPoint cap func lo step i = some p) :
    jsIsFinite p.y = true ∧ p.x = lo + (i : ℚ) * step := by
  unfold calcPoint at h
  dsimp only at h
  split at h
  · cases h
    rename_i hcond
    refine ⟨?_, rfl⟩
    simp only [Bool.and_eq_true] at hcond
    exact hcond.1.2
  · exact Option.noConfusion h

theorem genPoint_some {cap : EvalCap} {func derivStr : String}
    {slope intercept : JsNum} {lo step : ℚ} {i : ℕ} {s : GSample}
    (h : genPoint cap func derivStr slope intercept lo step i = some s) :
    jsIsFinite s.y = true ∧ jsIsFinite s.dy = true ∧
    s.x = lo + (i : ℚ) * step ∧
    s.tangent = jsAdd (jsMul slope (.fin (lo + (i : ℚ) * step))) intercept := by
  unfold genPoint at h
  dsimp only at h
  split at h
  · exact Option.noConfusion h
  · split at h
    · exact Option.noConfusion h
    · split at h
      · cases h
        rename_i hcond
        simp only [Bool.and_eq_true] at hcond
        exact ⟨hcond.1, jsOrZero_finite _ hcond.2, rfl, rfl⟩
      · exact Option.noConfusion h

set_option maxRecDepth 4096 in
theorem generateData_mem {cap : EvalCap} {func derivStr : String} {dom : ℚ × ℚ}
    {tp : ℚ} {data : List GSample} {s : GSample}
    (hgen : generateData cap func derivStr dom tp = some data) (hs : s ∈ data) :
    ∃ slope f0 i, cap derivStr tp = .ok slope ∧ cap func tp = .ok f0 ∧
      genPoint cap func derivStr slope (jsSub f0 (jsMul slope (.fin tp)))
        dom.1 ((dom.2 - dom.1) / 1000) i = some s := by
  unfold generateData at hgen
  split at hgen
  · cases hgen
    simp at hs
  · split at hgen
    · exact Option.noConfusion hgen
    · split at hgen
      · exact Option.noConfusion hgen
      · cases hgen
        rw [List.mem_filterMap] at hs
        obtain ⟨i, -, hp⟩ := hs
        exact ⟨_, _, i, by assumption, by assumption, hp⟩

theorem readUpTo_le {α : Type} (l : List α) :
    ∀ n, n ≤ l.length → readUpTo l n = some (l.take n) := by
  intro n
  induction n with
  | zero => intro _; rfl
  | succ k ih =>
    intro h
    have hk : k < l.length := Nat.lt_of_lt_of_le (Nat.lt_succ_self k) h
    rw [readUpTo, ih (Nat.le_of_lt hk), List.get?_eq_get hk, List.take_succ]
    simp [List.getElem?_eq_getElem hk, List.get_eq_getElem]

theorem calculateDerivative_progress (cap : EvalCap) (s : VizState) :
    (calculateDerivative cap s).animationProgress = s.animationProgress := by
  unfold calculateDerivative
  split
  · rfl
  · split <;> rfl

/-! Claim theorems.  The concrete evaluations in counterexamples and witnesses
go through the kernel; the rational operations that Batteries marks
irreducible are made semireducible locally so that decide can evaluate
them. -/

section

attribute [local semireducible] Rat.add Rat.mul Rat.sub Rat.inv

/-- Claim C1, counterexample: the claim states that for every expression and
every x the result of safeEval is either the invalid sentinel (NaN) or a
finite real.  Under the modelled mathjs behaviour for the expression 1/x at
x = 0 (JavaScript division returns Infinity without raising, so nothing is
caught), safeEval returns positive infinity, which is neither NaN nor
finite. -/
theorem c1_safeEval_counterexample :
    safeEval cap1x exprOneOverX 0 = .posInf ∧
    jsIsFinite (safeEval cap1x exprOneOverX 0) = false ∧
    safeEval cap1x exprOneOverX 0 ≠ .nan := by
  refine ⟨by decide, by decide, by decide⟩

/-- Claim C1, amended: safeEval never raises — it is a total function of the
underlying outcome, mapping a thrown exception to NaN and passing a returned
value through unchanged — but the returned value may be an infinity as well
as NaN or a finite real; non-finite values are filtered later by the
samplers, not by the adapter. -/
theorem c1_safeEval_amended : ∀ (cap : EvalCap) (expr : String) (x : ℚ),
    (cap expr x = .err → safeEval cap expr x = .nan) ∧
    (∀ v, cap expr x = .ok v → safeEval cap expr x = v) := by
  intro cap expr x
  constructor
  · intro h
    unfold safeEval
    rw [h]
  · intro v h
    unfold safeEval
    rw [h]

/-- Claim C1, witness: the amended theorem applied to the always-throwing
capability converts the exception into NaN. -/
theorem c1_safeEval_amended_witness : safeEval capErr exprX 1 = .nan :=
  (c1_safeEval_amended capErr exprX 1).1 rfl

/-- Claim C5: one animation tick from a progress value in the unit interval,
with nonnegative elapsed time and positive speed, yields a progress value that
is never negative and never exceeds 1, and wraps to 0 (which lies in the
half-open unit interval) exactly when the advanced value passes 1. -/
theorem c5_animateTick_range (prev elapsed speed : ℚ) (h0 : 0 ≤ prev)
    (h1 : prev ≤ 1) (he : 0 ≤ elapsed) (hs : 0 < speed) :
    0 ≤ animateTick prev elapsed speed ∧ animateTick prev elapsed speed ≤ 1 ∧
    (1 < prev + elapsed / (5000 / speed) → animateTick prev elapsed speed = 0) ∧
    (¬ 1 < prev + elapsed / (5000 / speed) →
      animateTick prev elapsed speed = prev + elapsed / (5000 / speed)) := by
  have hper : (0 : ℚ) < 5000 / speed := by positivity
  have hinc : (0 : ℚ) ≤ elapsed / (5000 / speed) := by positivity
  unfold animateTick
  by_cases hw : prev + elapsed / (5000 / speed) > 1
  · rw [if_pos hw]
    exact ⟨le_refl 0, zero_le_one, fun _ => rfl, fun hc => absurd hw hc⟩
  · rw [if_neg hw]
    exact ⟨add_nonneg h0 hinc, not_lt.mp hw, fun hc => absurd hc hw, fun _ => rfl⟩

/-- Claim C5, witness: a concrete tick from progress one half with elapsed
1000 milliseconds at speed 1 stays inside the unit interval. -/
theorem c5_animateTick_range_witness :
    0 ≤ animateTick (1 / 2) 1000 1 ∧ animateTick (1 / 2) 1000 1 ≤ 1 ∧
    (1 < (1 : ℚ) / 2 + 1000 / (5000 / 1) → animateTick (1 / 2) 1000 1 = 0) ∧
    (¬ 1 < (1 : ℚ) / 2 + 1000 / (5000 / 1) →
      animateTick (1 / 2) 1000 1 = 1 / 2 + 1000 / (5000 / 1)) :=
  c5_animateTick_range (1 / 2) 1000 1 (by norm_num) (by norm_num) (by norm_num)
    (by norm_num)

/-- Claim C6: for a point whose x lies inside the effective range, with a
positive drawable width and a nondegenerate zoomed range, mapping to pixel
space with mapToSVG and mapping the pixel x back with the pointer inverse
recovers the x coordinate exactly (exact rational arithmetic). -/
theorem c6_viewport_round_trip (viewRange : ℚ × ℚ) (zoom : ℚ) (pan : ℚ × ℚ)
    (svgW svgH panY : ℚ) (p : ℚ × ℚ) (hv : viewRange.1 < viewRange.2)
    (hz : 0 < zoom) (hw : 80 < svgW)
    (hlo : (getEffectiveViewRange viewRange zoom pan).1 ≤ p.1)
    (hhi : p.1 ≤ (getEffectiveViewRange viewRange zoom pan).2) :
    fromSVGx svgW (getEffectiveViewRange viewRange zoom pan)
      (mapToSVG svgW svgH zoom panY (getEffectiveViewRange viewRange zoom pan) p).1
      = p.1 := by
  have hdw : (getEffectiveViewRange viewRange zoom pan).2 -
      (getEffectiveViewRange viewRange zoom pan).1
      = (viewRange.2 - viewRange.1) / zoom := by
    unfold getEffectiveViewRange
    dsimp only
    ring
  have hpos : 0 < (getEffectiveViewRange viewRange zoom pan).2 -
      (getEffectiveViewRange viewRange zoom pan).1 := by
    rw [hdw]
    exact div_pos (by linarith) hz
  unfold fromSVGx mapToSVG
  dsimp only
  have h1 : (getEffectiveViewRange viewRange zoom pan).2 -
      (getEffectiveViewRange viewRange zoom pan).1 ≠ 0 := ne_of_gt hpos
  have h2 : svgW - 2 * 40 ≠ 0 := by
    intro hc
    have : svgW = 80 := by linarith
    rw [this] at hw
    exact lt_irrefl _ hw
  field_simp
  ring

/-- Claim C6, witness: the round trip at the origin for the base view range
with zoom 1, no pan, and a 100 by 100 viewport. -/
theorem c6_viewport_round_trip_witness :
    fromSVGx 100 (getEffectiveViewRange (-10, 10) 1 (0, 0))
      (mapToSVG 100 100 1 0 (getEffectiveViewRange (-10, 10) 1 (0, 0)) (0, 0)).1
      = 0 :=
  c6_viewport_round_trip (-10, 10) 1 (0, 0) 100 100 0 (0, 0) (by norm_num)
    (by norm_num) (by norm_num) (by norm_num [getEffectiveViewRange])
    (by norm_num [getEffectiveViewRange])

/-- Claim C7: getEffectiveViewRange equals the pair centered at the panned
midpoint with half the zoomed width on each side, and for a fixed base range
and pan, a larger zoom inside the clamped bounds yields a strictly smaller
effective width. -/
theorem c7_effectiveRange_zoom :
    (∀ (v : ℚ × ℚ) (z : ℚ) (pan : ℚ × ℚ),
        getEffectiveViewRange v z pan =
          (((v.1 + v.2) / 2 + pan.1) - ((v.2 - v.1) / z) / 2,
           ((v.1 + v.2) / 2 + pan.1) + ((v.2 - v.1) / z) / 2)) ∧
    (∀ (v : ℚ × ℚ) (pan : ℚ × ℚ) (z1 z2 : ℚ), v.1 < v.2 → 1 / 2 ≤ z1 →
        z1 < z2 → z2 ≤ 5 →
        (getEffectiveViewRange v z2 pan).2 - (getEffectiveViewRange v z2 pan).1 <
          (getEffectiveViewRange v z1 pan).2 - (getEffectiveViewRange v z1 pan).1) := by
  constructor
  · intro v z pan
    rfl
  · intro v pan z1 z2 hv h1 h12 h2
    have hz1 : 0 < z1 := lt_of_lt_of_le (by norm_num) h1
    have hw : ∀ z : ℚ, (getEffectiveViewRange v z pan).2 -
        (getEffectiveViewRange v z pan).1 = (v.2 - v.1) / z := by
      intro z
      unfold getEffectiveViewRange
      dsimp only
      ring
    rw [hw, hw]
    exact div_lt_div_of_pos_left (by linarith) hz1 h12

/-- Claim C7, witness: doubling the zoom from 1 to 2 on the base range halves
the effective width. -/
theorem c7_effectiveRange_zoom_witness :
    (getEffectiveViewRange (-10, 10) 2 (0, 0)).2 -
      (getEffectiveViewRange (-10, 10) 2 (0, 0)).1 <
    (getEffectiveViewRange (-10, 10) 1 (0, 0)).2 -
      (getEffectiveViewRange (-10, 10) 1 (0, 0)).1 :=
  c7_effectiveRange_zoom.2 (-10, 10) (0, 0) 1 2 (by norm_num) (by norm_num)
    (by norm_num) (by norm_num)

/-- Claim C3, counterexample: the claim states that a change of the expression
or the domain resets the animation progress to 0.  In the embedded component,
changing the selected expression from sin(x) to cos(x) mid-animation, or
changing the domain, leaves the progress at its prior value one half; no reset
to 0 exists anywhere on these paths. -/
theorem c3_progress_reset_counterexample :
    (expressionChangeSelect capZ s0 exprCos).customFunction = exprCos ∧
    s0.customFunction ≠ exprCos ∧
    (expressionChangeSelect capZ s0 exprCos).animationProgress = 1 / 2 ∧
    (domainChange capZ s0 (-5, 5)).animationProgress = 1 / 2 ∧
    (1 : ℚ) / 2 ≠ 0 := by
  refine ⟨by decide, by decide, by decide, by decide, by decide⟩

/-- Claim C3, amended: changing the expression (through the predefined select
or the custom input) or the domain never touches the animation progress at
all — the recompute effect rebuilds the point lists but the progress keeps its
prior value, whatever it was; in particular no reset to 0 happens. -/
theorem c3_progress_reset_amended :
    ∀ (cap : EvalCap) (s : VizState) (value : String) (newRange : ℚ × ℚ),
      (expressionChangeSelect cap s value).animationProgress = s.animationProgress ∧
      (expressionChangeCustom cap s value).animationProgress = s.animationProgress ∧
      (domainChange cap s newRange).animationProgress = s.animationProgress := by
  intro cap s v r
  refine ⟨?_, ?_, ?_⟩
  · unfold expressionChangeSelect
    rw [calculateDerivative_progress]
    unfold handleFunctionChange
    split <;> rfl
  · unfold expressionChangeCustom
    rw [calculateDerivative_progress]
    unfold handleCustomFunctionChange
    dsimp only
    split <;> rfl
  · unfold domainChange
    rw [calculateDerivative_progress]


/-- Claim C4, counterexample: the claim states that for every progress value in
the closed unit interval the animated prefix reads no index outside the
sample list.  At progress exactly 1 on a two-sample list, endIndex equals the
length, so the loop reads index 2 — one past the end (undefined in
JavaScript, and the member access inside mapToSVG then throws); the modelled
read fails instead of returning the claimed floor(len times p) + 1 = 3
samples. -/
theorem c4_animated_slice_counterexample :
    createPathAnimated pts2 1 = none ∧ (0 : ℚ) ≤ 1 ∧ (1 : ℚ) ≤ 1 ∧
    pts2.length = 2 := by
  refine ⟨by decide, by decide, by decide, by decide⟩

/-- Claim C4, amended: for every progress value in the half-open interval
from 0 inclusive to 1 exclusive, the animated prefix reads no index outside
the list and returns exactly the first floor(len times p) + 1 samples, or the
empty prefix when floor(len times p) is at most 0; at progress exactly 1 with
a nonempty list the source reads one index past the end. -/
theorem c4_animated_slice_amended (pts : List PPoint) (p : ℚ) (h0 : 0 ≤ p)
    (h1 : p < 1) :
    createPathAnimated pts p =
      some (if ⌊(pts.length : ℚ) * p⌋ ≤ 0 then []
            else pts.take (⌊(pts.length : ℚ) * p⌋.toNat + 1)) := by
  unfold createPathAnimated
  dsimp only
  by_cases hlen : pts.length = 0
  · rw [if_pos hlen, hlen]
    norm_num
  · rw [if_neg hlen]
    have hlpos : 0 < pts.length := Nat.pos_of_ne_zero hlen
    by_cases hk : ⌊(pts.length : ℚ) * p⌋ ≤ 0
    · rw [if_pos hk, if_pos hk]
    · rw [if_neg hk, if_neg hk]
      have hkk : ⌊(pts.length : ℚ) * p⌋ < (pts.length : ℤ) := by
        rw [Int.floor_lt]
        push_cast
        calc (pts.length : ℚ) * p < (pts.length : ℚ) * 1 := by
              apply mul_lt_mul_of_pos_left h1
              exact_mod_cast hlpos
          _ = (pts.length : ℚ) := mul_one _
      exact readUpTo_le pts _ (by omega)

/-- Claim C4, witness: at progress one half on the two-sample list the
animated prefix is read successfully and equals the stated take. -/
theorem c4_animated_slice_witness :
    createPathAnimated pts2 (1 / 2) =
      some (if ⌊(pts2.length : ℚ) * (1 / 2)⌋ ≤ 0 then []
            else pts2.take (⌊(pts2.length : ℚ) * (1 / 2)⌋.toNat + 1)) :=
  c4_animated_slice_amended pts2 (1 / 2) (by norm_num) (by norm_num)

set_option maxRecDepth 100000 in
/-- Claim C8: every sample retained by calculatePoints has a finite y, every
sample retained by generateData has a finite y, and concretely for the
modelled expression 1/x on the domain from -10 to 10 at the source resolution
500 the capability returns Infinity at the grid point x = 0 and that grid
point is absent from the sample set. -/
theorem c8_sampler_finite :
    (∀ (cap : EvalCap) (func : String) (range : ℚ × ℚ) (n : ℕ) (p : PPoint),
        p ∈ calculatePoints cap func range n → jsIsFinite p.y = true) ∧
    (∀ (cap : EvalCap) (func derivStr : String) (dom : ℚ × ℚ) (tp : ℚ)
        (data : List GSample) (s : GSample),
        generateData cap func derivStr dom tp = some data → s ∈ data →
        jsIsFinite s.y = true) ∧
    safeEval cap1x exprOneOverX 0 = .posInf ∧
    (calculatePoints cap1x exprOneOverX (-10, 10) 500).all
      (fun p => decide (p.x ≠ 0)) = true := by
  refine ⟨?_, ?_, by decide, by decide⟩
  · intro cap func range n p hp
    unfold calculatePoints at hp
    dsimp only at hp
    rw [List.mem_filterMap] at hp
    obtain ⟨i, -, hi⟩ := hp
    exact (calcPoint_some hi).1
  · intro cap func d dom tp data s hgen hs
    obtain ⟨slope, f0, i, -, -, hp⟩ := generateData_mem hgen hs
    exact (genPoint_some hp).1

set_option maxRecDepth 100000 in
/-- Claim C8, witness: the universal part applied to the first retained
sample of the 1/x pass at resolution 10. -/
theorem c8_sampler_finite_witness :
    jsIsFinite (PPoint.mk (-10) (.fin (-(1 : ℚ) / 10))).y = true :=
  c8_sampler_finite.1 cap1x exprOneOverX (-10, 10) 10
    { x := -10, y := .fin (-(1 : ℚ) / 10) } (by decide)

/-- Claim C10: every sample emitted by generateData stores a finite dy — a
null or NaN derivative is coerced to 0 and an infinite derivative drops the
point, so no NaN or infinity is ever stored in the dy field. -/
theorem c10_emitted_dy_finite : ∀ (cap : EvalCap) (func derivStr : String)
    (dom : ℚ × ℚ) (tp : ℚ) (data : List GSample) (s : GSample),
    generateData cap func derivStr dom tp = some data → s ∈ data →
    jsIsFinite s.dy = true := by
  intro cap func d dom tp data s hgen hs
  obtain ⟨slope, f0, i, -, -, hp⟩ := generateData_mem hgen hs
  exact (genPoint_some hp).2.1

set_option maxRecDepth 100000 in
/-- Claim C10, witness: the theorem applied to the single sample of a
concrete pass with no derivative requested. -/
theorem c10_emitted_dy_finite_witness :
    jsIsFinite (GSample.mk 0 (.fin 1) (.fin 0) (.fin 1)).dy = true :=
  c10_emitted_dy_finite capW exprF "" (0, 1000) 0
    [{ x := 0, y := .fin 1, dy := .fin 0, tangent := .fin 1 }]
    { x := 0, y := .fin 1, dy := .fin 0, tangent := .fin 1 }
    (by decide) (by decide)

set_option maxRecDepth 100000 in
/-- Claim C2, counterexample: the claim states that every grid point with a
finite y is retained even when its derivative is invalid, with dy defaulted
to 0.  In the concrete pass below, the grid point x = 0 has finite y = 0 and
its derivative evaluates to Infinity, yet the produced data set consists only
of the point at x = 2: the x = 0 point was dropped, not retained. -/
theorem c2_retention_counterexample :
    capC exprF 0 = .ok (.fin 0) ∧
    capC exprD 0 = .ok .posInf ∧
    generateData capC exprF exprD (0, 2000) 0 =
      some [{ x := 2, y := .fin 0, dy := .fin 1, tangent := .nan }] := by
  refine ⟨by decide, by decide, by decide⟩

/-- Claim C2, amended: in a pass with a derivative requested, a grid point
with finite y whose derivative evaluates to NaN is retained with dy set to
the neutral default 0, but a grid point with finite y whose derivative
evaluates to positive or negative Infinity is dropped (and one whose
derivative evaluation throws is skipped): only the NaN flavour of invalid
gets the neutral default. -/
theorem c2_retention_amended : ∀ (cap : EvalCap) (func derivStr : String)
    (slope intercept : JsNum) (lo step : ℚ) (i : ℕ) (y : JsNum),
    derivStr ≠ "" →
    cap func (lo + (i : ℚ) * step) = .ok y →
    jsIsFinite y = true →
    ((cap derivStr (lo + (i : ℚ) * step) = .ok .nan →
        genPoint cap func derivStr slope intercept lo step i =
          some { x := lo + (i : ℚ) * step, y := y, dy := .fin 0,
                 tangent := jsAdd (jsMul slope (.fin (lo + (i : ℚ) * step)))
                   intercept }) ∧
     (cap derivStr (lo + (i : ℚ) * step) = .ok .posInf →
        genPoint cap func derivStr slope intercept lo step i = none) ∧
     (cap derivStr (lo + (i : ℚ) * step) = .ok .negInf →
        genPoint cap func derivStr slope intercept lo step i = none)) := by
  intro cap func d slope intercept lo step i y hd hf hy
  refine ⟨?_, ?_, ?_⟩ <;> intro hdv <;>
    (unfold genPoint; dsimp only;
     rw [hf, if_neg hd, hdv];
     simp [jsFalsyOpt, jsIsFiniteOpt, jsOrZero, hy])

/-- Claim C2, witness: a concrete grid point with finite y = 1 and NaN
derivative is retained with dy = 0. -/
theorem c2_retention_witness :
    genPoint capCW exprF exprD (.fin 0) (.fin 0) 0 1 0 =
      some { x := 0 + ((0 : ℕ) : ℚ) * 1, y := .fin 1, dy := .fin 0,
             tangent := jsAdd (jsMul (.fin 0) (.fin (0 + ((0 : ℕ) : ℚ) * 1)))
               (.fin 0) } :=
  (c2_retention_amended capCW exprF exprD (.fin 0) (.fin 0) 0 1 0 (.fin 1)
    (by decide) (by decide) (by decide)).1 (by decide)

set_option maxRecDepth 100000 in
/-- Claim C9, counterexample: the claim states that an invalid derivative
value at the tangent point is treated as slope 0, which would make every
tangent value equal 0 times x plus f(x0) — here the finite value 0.  In the
concrete pass below the derivative evaluates to NaN at the tangent point and
the stored tangent value is NaN, not 0: no slope fallback exists in the
code. -/
theorem c9_tangent_counterexample :
    capN exprD 0 = .ok .nan ∧
    capN exprF 0 = .ok (.fin 0) ∧
    generateData capN exprF exprD (0, 1000) 0 =
      some [{ x := 0, y := .fin 0, dy := .fin 0, tangent := .nan }] ∧
    JsNum.nan ≠ .fin 0 := by
  refine ⟨by decide, by decide, by decide, by decide⟩

/-- Claim C9, amended: the tangent slope is the raw derivative value at the
tangent point with no invalid-to-zero fallback (a NaN derivative propagates
into slope, intercept and every stored tangent value, and a throwing
evaluation aborts the pass); the intercept is f(x0) minus slope times x0, and
every stored tangent value equals slope times x plus intercept under
JavaScript arithmetic.  Likewise the tangent segment of the page component
has endpoints on the line through the highlighted point with its dy as
slope. -/
theorem c9_tangent_amended :
    (∀ (cap : EvalCap) (func derivStr : String) (dom : ℚ × ℚ) (tp : ℚ)
        (slope f0 : JsNum) (data : List GSample),
        generateData cap func derivStr dom tp = some data →
        cap derivStr tp = .ok slope → cap func tp = .ok f0 →
        ∀ s ∈ data,
          s.tangent = jsAdd (jsMul slope (.fin s.x))
            (jsSub f0 (jsMul slope (.fin tp)))) ∧
    (∀ cx cy m : ℚ,
        (tangentLinePoints cx cy m).1.2 =
          m * (tangentLinePoints cx cy m).1.1 + (cy - m * cx) ∧
        (tangentLinePoints cx cy m).2.2 =
          m * (tangentLinePoints cx cy m).2.1 + (cy - m * cx)) := by
  constructor
  · intro cap func d dom tp slope f0 data hgen hslope hf0 s hs
    obtain ⟨slope2, f02, i, hd2, hf2, hp⟩ := generateData_mem hgen hs
    rw [hslope] at hd2
    rw [hf0] at hf2
    cases hd2
    cases hf2
    obtain ⟨-, -, hx, ht⟩ := genPoint_some hp
    rw [← hx] at ht
    exact ht
  · intro cx cy m
    constructor
    · unfold tangentLinePoints
      dsimp only
      ring
    · unfold tangentLinePoints
      dsimp only
      ring

set_option maxRecDepth 100000 in
/-- Claim C9, witness: the amended theorem applied to the concrete NaN-slope
pass identifies the stored tangent value with the line formula. -/
theorem c9_tangent_witness :
    (GSample.mk 0 (.fin 0) (.fin 0) .nan).tangent =
      jsAdd (jsMul JsNum.nan (.fin (GSample.mk 0 (.fin 0) (.fin 0) .nan).x))
        (jsSub (.fin 0) (jsMul JsNum.nan (.fin 0))) :=
  c9_tangent_amended.1 capN exprF exprD (0, 1000) 0 .nan (.fin 0)
    [{ x := 0, y := .fin 0, dy := .fin 0, tangent := .nan }]
    (by decide) (by decide) (by decide)
    { x := 0, y := .fin 0, dy := .fin 0, tangent := .nan } (by decide)

end
